import Mathlib

/-!
Shallow embedding of the metric collection engine of the aws-otel-community
Go sample app: the active-threads oscillator (`updateThreadsActive` in
collection/collector.go), the random bounded generator callbacks
(`updateCpuUsage`, `updateTotalHeapSize`), instrument registration
(`NewRandomMetricCollector` and its four register functions), and config
loading (`getConf` / `getDefaultConfig` in the app main file).

Go `int64` values are modelled as `Int`: every quantity the claims touch is
bounded (oscillator values stay within `[-1, B]` for the configured bound
`B`, random draws stay below the configured upper bound), so 64-bit
wraparound is unreachable on the verified paths.
-/

/-- State of the active-threads oscillator: the Go package-level globals
`threadsActive : int64` and `threadsBool : bool` (`true` = rising). -/
structure OscState where
  threadsActive : Int
  threadsBool : Bool
deriving DecidableEq, Repr

/-- Initial oscillator state, from the Go initializers
`threadsActive int64 = 0` and `threadsBool = true`. -/
def initOscState : OscState := ⟨0, true⟩

/-- One call of `updateThreadsActive` (collector.go), as a function of the
configured bound `cfg.ThreadsActiveUpperBound` and the current globals.
Returns the delta passed to `rmc.threadsActive.Add` on this call (`none`
when the call reaches a branch with no `Add`) and the updated globals.
The two `else` branches of the Go code flip `threadsBool` and move
`threadsActive` without calling `Add`. -/
def updateThreadsActive (bound : Int) (s : OscState) : Option Int × OscState :=
  if s.threadsBool then
    if s.threadsActive < bound then
      (some 1, { s with threadsActive := s.threadsActive + 1 })
    else
      (none, { s with threadsBool := false, threadsActive := s.threadsActive - 1 })
  else
    if s.threadsActive > 0 then
      (some (-1), { s with threadsActive := s.threadsActive - 1 })
    else
      (none, { s with threadsBool := true, threadsActive := s.threadsActive + 1 })

/-- `n` successive calls of `updateThreadsActive` from state `s`: the list
of emitted deltas in call order, and the final state. -/
def runOsc (bound : Int) : Nat → OscState → List (Option Int) × OscState
  | 0, s => ([], s)
  | n + 1, s =>
    let t := updateThreadsActive bound s
    let r := runOsc bound n t.2
    (t.1 :: r.1, r.2)

/-- The `conf` struct of the app main file: Go field names kept, `int64`
fields modelled as `Int`. -/
structure conf where
  Host : String
  Port : String
  TimeAliveIncrementer : Int
  TotalheapSizeUpperBound : Int
  ThreadsActiveUpperBound : Int
  CpuUsageUpperBound : Int
deriving DecidableEq, Repr

/-- The Go zero value of `conf`, as produced by `var c conf` in `main`:
empty strings and zero integers. -/
def zeroConf : conf := ⟨"", "", 0, 0, 0, 0⟩

/-- `getDefaultConfig`: overwrites every field of the receiver with the
package-level defaults (`defaultHost = "0.0.0.0"`, `defaultPort = "4567"`,
incrementer 1, heap bound 100, threads bound 10, cpu bound 100). -/
def getDefaultConfig (c : conf) : conf :=
  { c with
    Host := "0.0.0.0"
    Port := "4567"
    TimeAliveIncrementer := 1
    TotalheapSizeUpperBound := 100
    ThreadsActiveUpperBound := 10
    CpuUsageUpperBound := 100 }

/-- One key/value entry of a parsed YAML config document, restricted to the
six keys the `conf` struct tags declare (`Host`, `Port`,
`RandomTimeAliveIncrementer`, `RandomTotalHeapSizeUpperBound`,
`RandomThreadsActiveUpperBound`, `RandomCpuUsageUpperBound`). -/
inductive YamlField where
  | host (v : String)
  | port (v : String)
  | randomTimeAliveIncrementer (v : Int)
  | randomTotalHeapSizeUpperBound (v : Int)
  | randomThreadsActiveUpperBound (v : Int)
  | randomCpuUsageUpperBound (v : Int)
deriving DecidableEq, Repr

/-- Effect of one document key on the struct, per the yaml struct tags:
the tagged field is overwritten, nothing else changes. -/
def applyField (c : conf) : YamlField → conf
  | .host v => { c with Host := v }
  | .port v => { c with Port := v }
  | .randomTimeAliveIncrementer v => { c with TimeAliveIncrementer := v }
  | .randomTotalHeapSizeUpperBound v => { c with TotalheapSizeUpperBound := v }
  | .randomThreadsActiveUpperBound v => { c with ThreadsActiveUpperBound := v }
  | .randomCpuUsageUpperBound v => { c with CpuUsageUpperBound := v }

/-- `yaml.Unmarshal` semantics on `conf` for a successfully parsed
document: each present key overwrites its tagged field, absent keys leave
the field untouched (no defaulting is applied by the library). -/
def yamlUnmarshalConf (doc : List YamlField) (c : conf) : conf :=
  doc.foldl applyField c

/-- Outcome of `ioutil.ReadFile "config.yaml"` followed by parsing:
`missing` for a read error, `content none` for a file that fails to parse,
`content (some doc)` for a file parsing to document `doc`. -/
inductive ReadResult where
  | missing
  | content (doc : Option (List YamlField))
deriving DecidableEq, Repr

/-- `getConf`: read error falls back to `getDefaultConfig`, parse error
falls back to `getDefaultConfig`, a successful parse returns the
unmarshalled struct unchanged. -/
def getConf (c : conf) (file : ReadResult) : conf :=
  match file with
  | .missing => getDefaultConfig c
  | .content none => getDefaultConfig c
  | .content (some doc) => yamlUnmarshalConf doc c

/-- The documented default struct from the spec and the Go package-level
default variables. -/
def documentedDefaultConf : conf := ⟨"0.0.0.0", "4567", 1, 100, 10, 100⟩

/-- Result of one invocation of a registered asynchronous callback:
either `Observe` was called with a value, or the callback panicked (Go
`panic`, unrecovered anywhere in the app code) before reaching `Observe`. -/
inductive CallbackOutcome where
  | observed (v : Int)
  | panicked (msg : String)
deriving DecidableEq, Repr

/-- Go `rand.Intn n` for an abstract draw `r` from the random source:
panics when `n <= 0`, otherwise returns a value in `[0, n)` (modelled as
`r % n`). -/
def randIntn (n : Int) (r : Nat) : Except String Int :=
  if n ≤ 0 then .error "invalid argument to Intn"
  else .ok ((r : Int) % n)

/-- Body of the callback registered by `updateCpuUsage`:
`min := 0; max := cfg.CpuUsageUpperBound; Observe(rand.Intn(max-min) + min)`. -/
def cpuUsageCallback (cpuUsageUpperBound : Int) (r : Nat) : CallbackOutcome :=
  let mn : Int := 0
  let mx : Int := cpuUsageUpperBound
  match randIntn (mx - mn) r with
  | .error e => .panicked e
  | .ok d => .observed (d + mn)

/-- Body of the callback registered by `updateTotalHeapSize`:
`min := 0; max := cfg.TotalheapSizeUpperBound; Observe(rand.Intn(max-min) + min)`. -/
def totalHeapSizeCallback (totalHeapSizeUpperBound : Int) (r : Nat) : CallbackOutcome :=
  let mn : Int := 0
  let mx : Int := totalHeapSizeUpperBound
  match randIntn (mx - mn) r with
  | .error e => .panicked e
  | .ok d => .observed (d + mn)

/-- The `randomMetricCollector` struct: each field holds the instrument
handle the meter returned. A Go zero-value (nil) handle, stored when the
meter returned an error, is `none`; handles themselves are abstracted as
integers. -/
structure randomMetricCollector where
  timeAlive : Option Int
  cpuUsage : Option Int
  heapSize : Option Int
  threadsActive : Option Int
deriving DecidableEq, Repr

/-- The handle value a register function stores: the returned handle on
success, the Go zero value (nil) when the meter returned an error — the
assignment `rmc.x = x` happens in both cases. -/
def handleOrNil (resp : Except String Int) : Option Int :=
  match resp with
  | .ok h => some h
  | .error _ => none

/-- The lines a register function prints: `fmt.Println(err)` exactly when
the meter returned an error. -/
def errLog (resp : Except String Int) : List String :=
  match resp with
  | .ok _ => []
  | .error e => [e]

/-- `registerTimeAlive`, as a function of the meter's response: stores the
handle (nil on error), prints the error if any, and always returns. -/
def registerTimeAlive (resp : Except String Int) (rmc : randomMetricCollector) :
    randomMetricCollector × List String :=
  ({ rmc with timeAlive := handleOrNil resp }, errLog resp)

/-- `registerCpuUsage`, same shape as `registerTimeAlive`. -/
def registerCpuUsage (resp : Except String Int) (rmc : randomMetricCollector) :
    randomMetricCollector × List String :=
  ({ rmc with cpuUsage := handleOrNil resp }, errLog resp)

/-- `registerHeapSize`, same shape as `registerTimeAlive`. -/
def registerHeapSize (resp : Except String Int) (rmc : randomMetricCollector) :
    randomMetricCollector × List String :=
  ({ rmc with heapSize := handleOrNil resp }, errLog resp)

/-- `registerThreadsActive`, same shape as `registerTimeAlive`. -/
def registerThreadsActive (resp : Except String Int) (rmc : randomMetricCollector) :
    randomMetricCollector × List String :=
  ({ rmc with threadsActive := handleOrNil resp }, errLog resp)

/-- `NewRandomMetricCollector`: starts from the zero-value struct, runs the
four register calls in source order (heap, threads, time alive, cpu) and
returns the struct unconditionally, together with everything printed. -/
def NewRandomMetricCollector (respHeap respThreads respTime respCpu : Except String Int) :
    randomMetricCollector × List String :=
  let rmc0 : randomMetricCollector := ⟨none, none, none, none⟩
  let s1 := registerHeapSize respHeap rmc0
  let s2 := registerThreadsActive respThreads s1.1
  let s3 := registerTimeAlive respTime s2.1
  let s4 := registerCpuUsage respCpu s3.1
  (s4.1, s1.2 ++ s2.2 ++ s3.2 ++ s4.2)

/-! ## Helper lemmas about the oscillator -/

/-- Rising, strictly below the bound: Add(+1) and increment. -/
theorem tick_rise (bound v : Int) (h : v < bound) :
    updateThreadsActive bound ⟨v, true⟩ = (some 1, ⟨v + 1, true⟩) := by
  simp [updateThreadsActive, h]

/-- Rising at (or above) the bound: no Add, flip to falling, decrement. -/
theorem tick_top (bound v : Int) (h : bound ≤ v) :
    updateThreadsActive bound ⟨v, true⟩ = (none, ⟨v - 1, false⟩) := by
  simp [updateThreadsActive, not_lt.mpr h]

/-- Falling, strictly above zero: Add(-1) and decrement. -/
theorem tick_fall (bound v : Int) (h : 0 < v) :
    updateThreadsActive bound ⟨v, false⟩ = (some (-1), ⟨v - 1, false⟩) := by
  simp [updateThreadsActive, h]

/-- Falling at (or below) zero: no Add, flip to rising, increment. -/
theorem tick_bottom (bound v : Int) (h : v ≤ 0) :
    updateThreadsActive bound ⟨v, false⟩ = (none, ⟨v + 1, true⟩) := by
  simp [updateThreadsActive, not_lt.mpr h]

theorem runOsc_succ (bound : Int) (n : Nat) (s : OscState) :
    runOsc bound (n + 1) s =
      ((updateThreadsActive bound s).1 ::
          (runOsc bound n (updateThreadsActive bound s).2).1,
        (runOsc bound n (updateThreadsActive bound s).2).2) := rfl

/-- Running `m + n` ticks is running `m`, then `n` from where that left
the state. -/
theorem runOsc_snd_add (bound : Int) (m n : Nat) (s : OscState) :
    (runOsc bound (m + n) s).2 = (runOsc bound n (runOsc bound m s).2).2 := by
  induction m generalizing s with
  | zero => rw [Nat.zero_add]; rfl
  | succ k ih =>
      have h : k + 1 + n = (k + n) + 1 := by omega
      rw [h, runOsc_succ, runOsc_succ]
      exact ih ((updateThreadsActive bound s).2)

/-- Rising phase: while `v + k` stays at or below the bound, `k` ticks
move the value up by `k` and keep the direction rising. -/
theorem runOsc_rising (bound : Int) (k : Nat) (v : Int) (h : v + k ≤ bound) :
    (runOsc bound k ⟨v, true⟩).2 = ⟨v + k, true⟩ := by
  induction k generalizing v with
  | zero => simp [runOsc]
  | succ j ih =>
      rw [runOsc_succ, tick_rise bound v (by push_cast at h ⊢; omega)]
      rw [ih (v + 1) (by push_cast at h ⊢; omega)]
      congr 1
      push_cast
      ring

/-- Falling phase: while `k` stays at or below `v`, `k` ticks move the
value down by `k` and keep the direction falling. -/
theorem runOsc_falling (bound : Int) (k : Nat) (v : Int) (h : (k : Int) ≤ v) :
    (runOsc bound k ⟨v, false⟩).2 = ⟨v - k, false⟩ := by
  induction k generalizing v with
  | zero => simp [runOsc]
  | succ j ih =>
      rw [runOsc_succ, tick_fall bound v (by push_cast at h ⊢; omega)]
      rw [ih (v - 1) (by push_cast at h ⊢; omega)]
      congr 1
      push_cast
      ring

/-! ## Claims C1, C2, C10 -/

/-- Claim C1, counterexample: at bound 1 in state (1, Rising) — a boundary
tick — the code reaches the branch with no `Add` call: it emits no delta
at all and moves to (0, Falling), while the claim demands an emitted `-1`
on every boundary tick. -/
theorem C1_counterexample :
    updateThreadsActive 1 ⟨1, true⟩ = (none, ⟨0, false⟩) ∧
      (updateThreadsActive 1 ⟨1, true⟩).1 ≠ some (-1) := by decide

/-- Claim C1, amended: the tick's transition function is: Rising with
v < B emits +1 and moves to (v+1, Rising); Rising with v ≥ B emits
nothing and moves to (v-1, Falling); Falling with v > 0 emits -1 and
moves to (v-1, Falling); Falling with v ≤ 0 emits nothing and moves to
(v+1, Rising). Boundary ticks emit zero deltas; only interior ticks emit
exactly one ±1 via `Add`. -/
theorem C1_transition (bound v : Int) :
    (v < bound → updateThreadsActive bound ⟨v, true⟩ = (some 1, ⟨v + 1, true⟩)) ∧
    (bound ≤ v → updateThreadsActive bound ⟨v, true⟩ = (none, ⟨v - 1, false⟩)) ∧
    (0 < v → updateThreadsActive bound ⟨v, false⟩ = (some (-1), ⟨v - 1, false⟩)) ∧
    (v ≤ 0 → updateThreadsActive bound ⟨v, false⟩ = (none, ⟨v + 1, true⟩)) :=
  ⟨tick_rise bound v, tick_top bound v, tick_fall bound v, tick_bottom bound v⟩

/-- Witness for C1_transition: the four cases at concrete states with
bound 3. -/
theorem C1_transition_witness :
    ((1 : Int) < 3 ∧ updateThreadsActive 3 ⟨1, true⟩ = (some 1, ⟨2, true⟩)) ∧
    ((3 : Int) ≤ 3 ∧ updateThreadsActive 3 ⟨3, true⟩ = (none, ⟨2, false⟩)) ∧
    ((0 : Int) < 1 ∧ updateThreadsActive 3 ⟨1, false⟩ = (some (-1), ⟨0, false⟩)) ∧
    ((0 : Int) ≤ 0 ∧ updateThreadsActive 3 ⟨0, false⟩ = (none, ⟨1, true⟩)) :=
  ⟨⟨by decide, (C1_transition 3 1).1 (by decide)⟩,
   ⟨by decide, (C1_transition 3 3).2.1 (by decide)⟩,
   ⟨by decide, (C1_transition 3 1).2.2.1 (by decide)⟩,
   ⟨by decide, (C1_transition 3 0).2.2.2 (by decide)⟩⟩

/-- Claim C2, counterexample: with bound 3, the first seven ticks do not
emit the claimed delta sequence +1,+1,+1,-1,-1,-1,+1 — tick 4 and tick 7
are boundary ticks and emit nothing. -/
theorem C2_counterexample :
    (runOsc 3 7 initOscState).1 ≠
      [some 1, some 1, some 1, some (-1), some (-1), some (-1), some 1] := by decide

/-- Claim C2, amended: with bound 3 from (0, Rising), ticks 1–7 leave the
oscillator value at 1, 2, 3, 2, 1, 0, 1 as claimed, but the emitted
deltas are +1, +1, +1, (none), -1, -1, (none): the boundary ticks 4 and 7
emit no delta. -/
theorem C2_trace :
    (runOsc 3 7 initOscState).1 =
      [some 1, some 1, some 1, none, some (-1), some (-1), none] ∧
    ((runOsc 3 1 initOscState).2.threadsActive,
      (runOsc 3 2 initOscState).2.threadsActive,
      (runOsc 3 3 initOscState).2.threadsActive,
      (runOsc 3 4 initOscState).2.threadsActive,
      (runOsc 3 5 initOscState).2.threadsActive,
      (runOsc 3 6 initOscState).2.threadsActive,
      (runOsc 3 7 initOscState).2.threadsActive) = (1, 2, 3, 2, 1, 0, 1) := by
  decide

/-- Claim C10: the threads-active path is deterministic — the tick takes
no random source (unlike the modelled generator callbacks, which consume
a draw `r`): two runs of any length from equal states under the same
bound produce the same delta trace and the same final state. -/
theorem C10_deterministic (bound : Int) (n : Nat) (s1 s2 : OscState) (h : s1 = s2) :
    (runOsc bound n s1).1 = (runOsc bound n s2).1 ∧
      (runOsc bound n s1).2 = (runOsc bound n s2).2 := by
  subst h
  exact ⟨rfl, rfl⟩

/-- Witness for C10_deterministic at bound 3, five ticks. -/
theorem C10_deterministic_witness :
    (⟨0, true⟩ : OscState) = ⟨0, true⟩ ∧
    ((runOsc 3 5 ⟨0, true⟩).1 = (runOsc 3 5 ⟨0, true⟩).1 ∧
      (runOsc 3 5 ⟨0, true⟩).2 = (runOsc 3 5 ⟨0, true⟩).2) :=
  ⟨rfl, C10_deterministic 3 5 ⟨0, true⟩ ⟨0, true⟩ rfl⟩

/-! ## Claim C3: the degenerate bound B = 0 -/

/-- At bound 0 the start state returns after every two ticks. -/
theorem runOsc_zero_bound_period (m : Nat) :
    (runOsc 0 (2 * m) initOscState).2 = initOscState := by
  induction m with
  | zero => rfl
  | succ k ih =>
      have h : 2 * (k + 1) = 2 * k + 2 := by omega
      rw [h, runOsc_snd_add, ih]
      rfl

/-- At bound 0 no tick ever emits a delta, from either reachable state. -/
theorem runOsc_zero_bound_deltas :
    ∀ (n : Nat) (s : OscState), s = initOscState ∨ s = ⟨-1, false⟩ →
      (runOsc 0 n s).1 = List.replicate n none := by
  intro n
  induction n with
  | zero => intro s _; rfl
  | succ k ih =>
      intro s hs
      rcases hs with rfl | rfl
      · rw [runOsc_succ]
        have h : updateThreadsActive 0 initOscState = (none, ⟨-1, false⟩) := by decide
        rw [h, ih ⟨-1, false⟩ (Or.inr rfl)]
        rfl
      · rw [runOsc_succ]
        have h : updateThreadsActive 0 ⟨-1, false⟩ = (none, initOscState) := by decide
        rw [h, ih initOscState (Or.inl rfl)]
        rfl

/-- Claim C3, counterexample: with bound 0, the very first tick moves the
value from 0 to -1 — it does not stay 0 (and -1 is outside [0, 0]). -/
theorem C3_counterexample :
    (runOsc 0 1 initOscState).2.threadsActive = -1 ∧ (-1 : Int) ≠ 0 := by decide

/-- Claim C3, amended: with bound 0 from (0, Rising), the direction does
alternate every tick and no delta is ever emitted to the instrument, but
the value does not stay 0: it alternates between 0 (after even ticks) and
-1 (after odd ticks), leaving [0, 0] on every odd tick. -/
theorem C3_degenerate (n : Nat) :
    (runOsc 0 n initOscState).1 = List.replicate n none ∧
    (runOsc 0 n initOscState).2 =
      (if n % 2 = 0 then initOscState else ⟨-1, false⟩) := by
  refine ⟨runOsc_zero_bound_deltas n initOscState (Or.inl rfl), ?_⟩
  have hdecomp : n = 2 * (n / 2) + n % 2 := by omega
  rcases Nat.mod_two_eq_zero_or_one n with h | h
  · rw [h]
    simp only [if_pos rfl]
    calc (runOsc 0 n initOscState).2
        = (runOsc 0 (2 * (n / 2) + 0) initOscState).2 := by rw [← h, ← hdecomp]
      _ = initOscState := by
          rw [Nat.add_zero]
          exact runOsc_zero_bound_period (n / 2)
  · rw [h]
    simp only [if_neg (by omega : ¬ (1 : Nat) = 0)]
    calc (runOsc 0 n initOscState).2
        = (runOsc 0 (2 * (n / 2) + 1) initOscState).2 := by rw [← h, ← hdecomp]
      _ = (runOsc 0 1 (runOsc 0 (2 * (n / 2)) initOscState).2).2 := by
          rw [runOsc_snd_add]
      _ = (runOsc 0 1 initOscState).2 := by rw [runOsc_zero_bound_period (n / 2)]
      _ = ⟨-1, false⟩ := by decide

/-! ## Claim C6: the value never leaves [0, B] for B ≥ 1 -/

/-- One tick preserves 0 ≤ v ≤ B when B ≥ 1. -/
theorem tick_preserves_range (bound : Int) (hb : 1 ≤ bound) (s : OscState)
    (h0 : 0 ≤ s.threadsActive) (h1 : s.threadsActive ≤ bound) :
    0 ≤ (updateThreadsActive bound s).2.threadsActive ∧
      (updateThreadsActive bound s).2.threadsActive ≤ bound := by
  rcases s with ⟨v, b⟩
  simp only [updateThreadsActive] at *
  cases b <;> simp only [Bool.false_eq_true, if_true, if_false] <;> split <;>
    simp_all <;> omega

/-- Any number of ticks preserves 0 ≤ v ≤ B when B ≥ 1. -/
theorem runOsc_preserves_range (bound : Int) (hb : 1 ≤ bound) :
    ∀ (n : Nat) (s : OscState), 0 ≤ s.threadsActive → s.threadsActive ≤ bound →
      0 ≤ (runOsc bound n s).2.threadsActive ∧
        (runOsc bound n s).2.threadsActive ≤ bound := by
  intro n
  induction n with
  | zero => intro s h0 h1; exact ⟨h0, h1⟩
  | succ k ih =>
      intro s h0 h1
      rw [runOsc_succ]
      have := tick_preserves_range bound hb s h0 h1
      exact ih _ this.1 this.2

/-- Claim C6: for every bound B ≥ 1 and every finite number of ticks from
(0, Rising), the oscillator value stays within [0, B]. -/
theorem C6_value_in_range (bound : Int) (hb : 1 ≤ bound) (n : Nat) :
    0 ≤ (runOsc bound n initOscState).2.threadsActive ∧
      (runOsc bound n initOscState).2.threadsActive ≤ bound :=
  runOsc_preserves_range bound hb n initOscState (by simp [initOscState])
    (by simp [initOscState]; omega)

/-- Witness for C6_value_in_range at bound 2, five ticks. -/
theorem C6_value_in_range_witness :
    (1 : Int) ≤ 2 ∧
    (0 ≤ (runOsc 2 5 initOscState).2.threadsActive ∧
      (runOsc 2 5 initOscState).2.threadsActive ≤ 2) :=
  ⟨by decide, C6_value_in_range 2 (by decide) 5⟩

/-! ## Claim C7: periodicity -/

theorem runOsc_one (bound : Int) (s : OscState) :
    (runOsc bound 1 s).2 = (updateThreadsActive bound s).2 := rfl

/-- With bound b = c+1, 2b ticks from the start state land on (0, Falling):
b rising ticks to (b, Rising), one flip tick to (b-1, Falling), then b-1
falling ticks to (0, Falling). -/
theorem runOsc_start_2B (c : Nat) :
    (runOsc ((c + 1 : Nat) : Int) (2 * (c + 1)) initOscState).2 = ⟨0, false⟩ := by
  have h1 : (runOsc ((c + 1 : Nat) : Int) (c + 1) initOscState).2 =
      ⟨((c + 1 : Nat) : Int), true⟩ := by
    have h := runOsc_rising ((c + 1 : Nat) : Int) (c + 1) 0 (by push_cast; omega)
    simpa [initOscState] using h
  have h2 : (runOsc ((c + 1 : Nat) : Int) 1 ⟨((c + 1 : Nat) : Int), true⟩).2 =
      ⟨((c + 1 : Nat) : Int) - 1, false⟩ := by
    rw [runOsc_one, tick_top _ _ le_rfl]
  have h3 : 2 * (c + 1) = (c + 1) + (1 + c) := by omega
  rw [h3, runOsc_snd_add, h1, runOsc_snd_add _ 1 c, h2,
    runOsc_falling _ c _ (by push_cast; omega)]
  have h4 : ((c + 1 : Nat) : Int) - 1 - (c : Int) = 0 := by push_cast; ring
  rw [h4]

/-- With bound b = c+1, the state (1, Rising) — reached after the first
tick — returns to itself after 2b further ticks: c rising ticks, one flip
tick, c falling ticks, one flip tick. -/
theorem runOsc_orbit (c : Nat) :
    (runOsc ((c + 1 : Nat) : Int) (2 * (c + 1)) ⟨1, true⟩).2 = ⟨1, true⟩ := by
  have h1 : (runOsc ((c + 1 : Nat) : Int) c ⟨1, true⟩).2 = ⟨1 + (c : Int), true⟩ :=
    runOsc_rising _ c 1 (by push_cast; omega)
  have h2 : (runOsc ((c + 1 : Nat) : Int) 1 ⟨1 + (c : Int), true⟩).2 =
      ⟨(c : Int), false⟩ := by
    rw [runOsc_one, tick_top _ _ (by push_cast; omega)]
    have h : 1 + (c : Int) - 1 = (c : Int) := by ring
    rw [h]
  have hb1 : (runOsc ((c + 1 : Nat) : Int) (c + 1) ⟨1, true⟩).2 = ⟨(c : Int), false⟩ := by
    rw [runOsc_snd_add _ c 1, h1, h2]
  have hb2 : (runOsc ((c + 1 : Nat) : Int) ((c + 1) + c) ⟨1, true⟩).2 = ⟨0, false⟩ := by
    rw [runOsc_snd_add _ (c + 1) c, hb1, runOsc_falling _ c _ le_rfl]
    have h : (c : Int) - (c : Int) = 0 := by ring
    rw [h]
  have hsplit : 2 * (c + 1) = ((c + 1) + c) + 1 := by omega
  rw [hsplit, runOsc_snd_add _ ((c + 1) + c) 1, hb2, runOsc_one,
    tick_bottom _ 0 le_rfl]
  have h : (0 : Int) + 1 = 1 := by ring
  rw [h]

/-- Claim C7, counterexample: with bound 1, applying 2·1 = 2 ticks from
(0, Rising) lands on (0, Falling), not back on (0, Rising). -/
theorem C7_counterexample :
    (runOsc 1 2 initOscState).2 ≠ initOscState ∧
      (runOsc 1 2 initOscState).2 = ⟨0, false⟩ := by decide

/-- Claim C7, amended: for every bound b ≥ 1, 2b ticks from (0, Rising)
land on (0, Falling) — the start state itself is never revisited — and
the wave is periodic with period 2b from tick 1 onward: for every n ≥ 1
the state after n + 2b ticks equals the state after n ticks. -/
theorem C7_period (b : Nat) (hb : 1 ≤ b) :
    (runOsc (b : Int) (2 * b) initOscState).2 = ⟨0, false⟩ ∧
    ∀ n : Nat, 1 ≤ n →
      (runOsc (b : Int) (n + 2 * b) initOscState).2 =
        (runOsc (b : Int) n initOscState).2 := by
  obtain ⟨c, rfl⟩ : ∃ c, b = c + 1 := ⟨b - 1, by omega⟩
  refine ⟨runOsc_start_2B c, ?_⟩
  intro n hn
  obtain ⟨k, rfl⟩ : ∃ k, n = 1 + k := ⟨n - 1, by omega⟩
  have hfirst : (runOsc ((c + 1 : Nat) : Int) 1 initOscState).2 = ⟨1, true⟩ := by
    rw [runOsc_one]
    have h : initOscState = ⟨0, true⟩ := rfl
    rw [h, tick_rise _ 0 (by push_cast; omega)]
    have h0 : (0 : Int) + 1 = 1 := by ring
    rw [h0]
  have hsplit : (1 + k) + 2 * (c + 1) = 1 + (2 * (c + 1) + k) := by omega
  calc (runOsc ((c + 1 : Nat) : Int) ((1 + k) + 2 * (c + 1)) initOscState).2
      = (runOsc ((c + 1 : Nat) : Int) (2 * (c + 1) + k)
          (runOsc ((c + 1 : Nat) : Int) 1 initOscState).2).2 := by
        rw [hsplit, runOsc_snd_add]
    _ = (runOsc ((c + 1 : Nat) : Int) (2 * (c + 1) + k) ⟨1, true⟩).2 := by rw [hfirst]
    _ = (runOsc ((c + 1 : Nat) : Int) k
          (runOsc ((c + 1 : Nat) : Int) (2 * (c + 1)) ⟨1, true⟩).2).2 := by
        rw [runOsc_snd_add]
    _ = (runOsc ((c + 1 : Nat) : Int) k ⟨1, true⟩).2 := by rw [runOsc_orbit c]
    _ = (runOsc ((c + 1 : Nat) : Int) (1 + k) initOscState).2 := by
        rw [runOsc_snd_add _ 1 k, hfirst]

/-- Witness for C7_period at bound 1, instantiating the periodicity part
at n = 1. -/
theorem C7_period_witness :
    1 ≤ 1 ∧
    ((runOsc ((1 : Nat) : Int) (2 * 1) initOscState).2 = ⟨0, false⟩ ∧
      (runOsc ((1 : Nat) : Int) (1 + 2 * 1) initOscState).2 =
        (runOsc ((1 : Nat) : Int) 1 initOscState).2) :=
  ⟨by decide, ⟨(C7_period 1 (by decide)).1, (C7_period 1 (by decide)).2 1 (by decide)⟩⟩

/-! ## Claim C4: the random bounded generator callbacks -/

/-- Claim C4, counterexample: with upper bound 0 both generator callbacks
panic inside `rand.Intn` (its argument is 0) before reaching `Observe`;
nothing in the app code recovers the panic, so the invocation crashes
rather than failing with a `ConfigError`/`CallbackError`. -/
theorem C4_counterexample :
    cpuUsageCallback 0 0 = .panicked "invalid argument to Intn" ∧
      totalHeapSizeCallback 0 0 = .panicked "invalid argument to Intn" := by decide

/-- Claim C4, amended: with upperBound > 0 each callback calls `Observe`
with a value in [0, upperBound); with upperBound = 0 the random draw
panics before any `Observe` — no `Observe` happens, but the failure is an
unrecovered panic, not a handled `ConfigError`. -/
theorem C4_generators (ub : Int) (r : Nat) :
    (0 < ub →
      (∃ v, cpuUsageCallback ub r = .observed v ∧ 0 ≤ v ∧ v < ub) ∧
      (∃ v, totalHeapSizeCallback ub r = .observed v ∧ 0 ≤ v ∧ v < ub)) ∧
    (ub = 0 →
      cpuUsageCallback ub r = .panicked "invalid argument to Intn" ∧
      totalHeapSizeCallback ub r = .panicked "invalid argument to Intn") := by
  constructor
  · intro h
    have hok : randIntn (ub - 0) r = .ok ((r : Int) % ub) := by
      rw [randIntn]
      rw [if_neg (by omega)]
      rw [sub_zero]
    have hmem : 0 ≤ (r : Int) % ub ∧ (r : Int) % ub < ub :=
      ⟨Int.emod_nonneg _ (by omega), Int.emod_lt_of_pos _ h⟩
    constructor
    · refine ⟨(r : Int) % ub, ?_, hmem.1, hmem.2⟩
      rw [cpuUsageCallback]
      simp only [hok]
      rw [add_zero]
    · refine ⟨(r : Int) % ub, ?_, hmem.1, hmem.2⟩
      rw [totalHeapSizeCallback]
      simp only [hok]
      rw [add_zero]
  · intro h
    subst h
    constructor
    · rw [cpuUsageCallback]
      simp only [randIntn]
      rw [if_pos (by omega)]
    · rw [totalHeapSizeCallback]
      simp only [randIntn]
      rw [if_pos (by omega)]

/-- Witness for C4_generators: upper bound 5 with draw 7 observes 2;
upper bound 0 panics. -/
theorem C4_generators_witness :
    ((0 : Int) < 5 ∧
      ((∃ v, cpuUsageCallback 5 7 = .observed v ∧ 0 ≤ v ∧ v < 5) ∧
        (∃ v, totalHeapSizeCallback 5 7 = .observed v ∧ 0 ≤ v ∧ v < 5))) ∧
    ((0 : Int) = 0 ∧
      (cpuUsageCallback 0 7 = .panicked "invalid argument to Intn" ∧
        totalHeapSizeCallback 0 7 = .panicked "invalid argument to Intn")) :=
  ⟨⟨by decide, (C4_generators 5 7).1 (by decide)⟩,
   ⟨rfl, (C4_generators 0 7).2 rfl⟩⟩

/-! ## Claim C5: instrument registration -/

/-- Claim C5, counterexample: with the heap-size registration failing and
the other three succeeding, `NewRandomMetricCollector` still returns —
startup proceeds with a half-registered instrument set (heapSize is the
nil zero value while the other three handles are set), the error merely
printed. -/
theorem C5_counterexample :
    NewRandomMetricCollector (.error "duplicate registration") (.ok 1) (.ok 2) (.ok 3) =
      (⟨some 2, some 3, none, some 1⟩, ["duplicate registration"]) := by decide

/-- Claim C5, amended: a registration failure is not fatal: each register
function prints the error and stores the zero-value (nil) handle, and
`NewRandomMetricCollector` returns unconditionally for every combination
of meter responses — the process proceeds even with a half-registered
instrument set. -/
theorem C5_registration_nonfatal (respHeap respThreads respTime respCpu : Except String Int) :
    NewRandomMetricCollector respHeap respThreads respTime respCpu =
      (⟨handleOrNil respTime, handleOrNil respCpu,
          handleOrNil respHeap, handleOrNil respThreads⟩,
        errLog respHeap ++ errLog respThreads ++ errLog respTime ++ errLog respCpu) := rfl

/-! ## Claims C8 and C9: config loading -/

/-- Claim C8: a missing config file and a malformed config file both yield
exactly the documented default struct {Host=0.0.0.0, Port=4567,
TimeAliveIncrementer=1, HeapUpperBound=100, ThreadsUpperBound=10,
CpuUsageUpperBound=100} — the two failure paths produce an identical
result, whatever the struct held before. -/
theorem C8_failure_paths_default (c : conf) :
    getConf c .missing = documentedDefaultConf ∧
      getConf c (.content none) = documentedDefaultConf ∧
      getConf c .missing = getConf c (.content none) :=
  ⟨rfl, rfl, rfl⟩

/-- A document with no `Host` key leaves `Host` untouched. -/
theorem unmarshal_keeps_Host (doc : List YamlField) (c : conf)
    (h : ∀ f ∈ doc, ∀ v, f ≠ .host v) :
    (yamlUnmarshalConf doc c).Host = c.Host := by
  induction doc generalizing c with
  | nil => rfl
  | cons f t ih =>
      have hf := h f (by simp)
      have ht : ∀ g ∈ t, ∀ v, g ≠ .host v := fun g hg => h g (by simp [hg])
      cases f <;> simp_all [yamlUnmarshalConf, applyField, List.foldl]

/-- A document with no `Port` key leaves `Port` untouched. -/
theorem unmarshal_keeps_Port (doc : List YamlField) (c : conf)
    (h : ∀ f ∈ doc, ∀ v, f ≠ .port v) :
    (yamlUnmarshalConf doc c).Port = c.Port := by
  induction doc generalizing c with
  | nil => rfl
  | cons f t ih =>
      have hf := h f (by simp)
      have ht : ∀ g ∈ t, ∀ v, g ≠ .port v := fun g hg => h g (by simp [hg])
      cases f <;> simp_all [yamlUnmarshalConf, applyField, List.foldl]

/-- A document with no `RandomTimeAliveIncrementer` key leaves
`TimeAliveIncrementer` untouched. -/
theorem unmarshal_keeps_TimeAliveIncrementer (doc : List YamlField) (c : conf)
    (h : ∀ f ∈ doc, ∀ v, f ≠ .randomTimeAliveIncrementer v) :
    (yamlUnmarshalConf doc c).TimeAliveIncrementer = c.TimeAliveIncrementer := by
  induction doc generalizing c with
  | nil => rfl
  | cons f t ih =>
      have hf := h f (by simp)
      have ht : ∀ g ∈ t, ∀ v, g ≠ .randomTimeAliveIncrementer v :=
        fun g hg => h g (by simp [hg])
      cases f <;> simp_all [yamlUnmarshalConf, applyField, List.foldl]

/-- A document with no `RandomTotalHeapSizeUpperBound` key leaves
`TotalheapSizeUpperBound` untouched. -/
theorem unmarshal_keeps_TotalheapSizeUpperBound (doc : List YamlField) (c : conf)
    (h : ∀ f ∈ doc, ∀ v, f ≠ .randomTotalHeapSizeUpperBound v) :
    (yamlUnmarshalConf doc c).TotalheapSizeUpperBound = c.TotalheapSizeUpperBound := by
  induction doc generalizing c with
  | nil => rfl
  | cons f t ih =>
      have hf := h f (by simp)
      have ht : ∀ g ∈ t, ∀ v, g ≠ .randomTotalHeapSizeUpperBound v :=
        fun g hg => h g (by simp [hg])
      cases f <;> simp_all [yamlUnmarshalConf, applyField, List.foldl]

/-- A document with no `RandomThreadsActiveUpperBound` key leaves
`ThreadsActiveUpperBound` untouched. -/
theorem unmarshal_keeps_ThreadsActiveUpperBound (doc : List YamlField) (c : conf)
    (h : ∀ f ∈ doc, ∀ v, f ≠ .randomThreadsActiveUpperBound v) :
    (yamlUnmarshalConf doc c).ThreadsActiveUpperBound = c.ThreadsActiveUpperBound := by
  induction doc generalizing c with
  | nil => rfl
  | cons f t ih =>
      have hf := h f (by simp)
      have ht : ∀ g ∈ t, ∀ v, g ≠ .randomThreadsActiveUpperBound v :=
        fun g hg => h g (by simp [hg])
      cases f <;> simp_all [yamlUnmarshalConf, applyField, List.foldl]

/-- A document with no `RandomCpuUsageUpperBound` key leaves
`CpuUsageUpperBound` untouched. -/
theorem unmarshal_keeps_CpuUsageUpperBound (doc : List YamlField) (c : conf)
    (h : ∀ f ∈ doc, ∀ v, f ≠ .randomCpuUsageUpperBound v) :
    (yamlUnmarshalConf doc c).CpuUsageUpperBound = c.CpuUsageUpperBound := by
  induction doc generalizing c with
  | nil => rfl
  | cons f t ih =>
      have hf := h f (by simp)
      have ht : ∀ g ∈ t, ∀ v, g ≠ .randomCpuUsageUpperBound v :=
        fun g hg => h g (by simp [hg])
      cases f <;> simp_all [yamlUnmarshalConf, applyField, List.foldl]

/-- Claim C9: on a successful read and parse, `getConf` returns the
unmarshalled struct with no defaulting, so starting from the Go zero
value of `conf`, every key absent from the document keeps its zero value:
empty string for Host and Port, 0 for the incrementer and all three
upper bounds — in particular a well-formed file omitting a bound yields
an upper bound of 0, not the documented default. -/
theorem C9_no_defaulting (doc : List YamlField) :
    getConf zeroConf (.content (some doc)) = yamlUnmarshalConf doc zeroConf ∧
    ((∀ f ∈ doc, ∀ v, f ≠ .host v) →
      (getConf zeroConf (.content (some doc))).Host = "") ∧
    ((∀ f ∈ doc, ∀ v, f ≠ .port v) →
      (getConf zeroConf (.content (some doc))).Port = "") ∧
    ((∀ f ∈ doc, ∀ v, f ≠ .randomTimeAliveIncrementer v) →
      (getConf zeroConf (.content (some doc))).TimeAliveIncrementer = 0) ∧
    ((∀ f ∈ doc, ∀ v, f ≠ .randomTotalHeapSizeUpperBound v) →
      (getConf zeroConf (.content (some doc))).TotalheapSizeUpperBound = 0) ∧
    ((∀ f ∈ doc, ∀ v, f ≠ .randomThreadsActiveUpperBound v) →
      (getConf zeroConf (.content (some doc))).ThreadsActiveUpperBound = 0) ∧
    ((∀ f ∈ doc, ∀ v, f ≠ .randomCpuUsageUpperBound v) →
      (getConf zeroConf (.content (some doc))).CpuUsageUpperBound = 0) :=
  ⟨rfl,
   fun h => unmarshal_keeps_Host doc zeroConf h,
   fun h => unmarshal_keeps_Port doc zeroConf h,
   fun h => unmarshal_keeps_TimeAliveIncrementer doc zeroConf h,
   fun h => unmarshal_keeps_TotalheapSizeUpperBound doc zeroConf h,
   fun h => unmarshal_keeps_ThreadsActiveUpperBound doc zeroConf h,
   fun h => unmarshal_keeps_CpuUsageUpperBound doc zeroConf h⟩

/-- Witness for C9_no_defaulting at the empty (well-formed) document:
every key is absent and every field of the result is the zero value. -/
theorem C9_no_defaulting_witness :
    getConf zeroConf (.content (some [])) = yamlUnmarshalConf [] zeroConf ∧
    (getConf zeroConf (.content (some []))).Host = "" ∧
    (getConf zeroConf (.content (some []))).Port = "" ∧
    (getConf zeroConf (.content (some []))).TimeAliveIncrementer = 0 ∧
    (getConf zeroConf (.content (some []))).TotalheapSizeUpperBound = 0 ∧
    (getConf zeroConf (.content (some []))).ThreadsActiveUpperBound = 0 ∧
    (getConf zeroConf (.content (some []))).CpuUsageUpperBound = 0 :=
  ⟨(C9_no_defaulting []).1,
   (C9_no_defaulting []).2.1 (by simp),
   (C9_no_defaulting []).2.2.1 (by simp),
   (C9_no_defaulting []).2.2.2.1 (by simp),
   (C9_no_defaulting []).2.2.2.2.1 (by simp),
   (C9_no_defaulting []).2.2.2.2.2.1 (by simp),
   (C9_no_defaulting []).2.2.2.2.2.2 (by simp)⟩
